import Mathlib

/-!
Verification development for the autonomous-behavior core of a browser 3D
avatar scene: the per-avatar `Walker` (src/app5/main.js), the two-avatar
`Interaction` (src/app2/interaction.js) and the `InteractionManager`
(src/app4/main.js).  Each JavaScript routine relevant to the checked
properties is shallowly embedded below; machine numbers are modelled as
exact rationals or reals.
-/

namespace Angle

open Real

noncomputable section

open scoped Classical

/-- The `while (rot > Math.PI) rot -= Math.PI * 2` loop of `Walker.update`
(src/app5/main.js lines 974 and 980): repeatedly subtract `2*π` while the
value exceeds `π`. -/
noncomputable def wrapDown (x : ℝ) : ℝ :=
  if h : Real.pi < x then wrapDown (x - 2 * Real.pi) else x
termination_by (⌈(x - Real.pi) / (2 * Real.pi)⌉).toNat
decreasing_by
  have hpi := Real.pi_pos
  have h2 : (0:ℝ) < 2 * Real.pi := by linarith
  have hq : (x - 2 * Real.pi - Real.pi) / (2 * Real.pi)
      = (x - Real.pi) / (2 * Real.pi) - 1 := by
    field_simp
    ring
  have hpos : (0:ℝ) < (x - Real.pi) / (2 * Real.pi) := by
    apply div_pos <;> linarith
  have hceil : 1 ≤ ⌈(x - Real.pi) / (2 * Real.pi)⌉ := by
    exact Int.ceil_pos.mpr hpos
  have : ⌈(x - 2 * Real.pi - Real.pi) / (2 * Real.pi)⌉
      = ⌈(x - Real.pi) / (2 * Real.pi)⌉ - 1 := by
    rw [hq]
    exact_mod_cast Int.ceil_sub_int ((x - Real.pi) / (2 * Real.pi)) 1
  simp only [this]
  omega

/-- The `while (rot < -Math.PI) rot += Math.PI * 2` loop of `Walker.update`
(src/app5/main.js lines 975 and 981): repeatedly add `2*π` while the value
is below `-π`. -/
noncomputable def wrapUp (x : ℝ) : ℝ :=
  if h : x < -Real.pi then wrapUp (x + 2 * Real.pi) else x
termination_by (⌈(-Real.pi - x) / (2 * Real.pi)⌉).toNat
decreasing_by
  have hpi := Real.pi_pos
  have h2 : (0:ℝ) < 2 * Real.pi := by linarith
  have hq : (-Real.pi - (x + 2 * Real.pi)) / (2 * Real.pi)
      = (-Real.pi - x) / (2 * Real.pi) - 1 := by
    field_simp
    ring
  have hpos : (0:ℝ) < (-Real.pi - x) / (2 * Real.pi) := by
    apply div_pos <;> linarith
  have hceil : 1 ≤ ⌈(-Real.pi - x) / (2 * Real.pi)⌉ := by
    exact Int.ceil_pos.mpr hpos
  have : ⌈(-Real.pi - (x + 2 * Real.pi)) / (2 * Real.pi)⌉
      = ⌈(-Real.pi - x) / (2 * Real.pi)⌉ - 1 := by
    rw [hq]
    exact_mod_cast Int.ceil_sub_int ((-Real.pi - x) / (2 * Real.pi)) 1
  simp only [this]
  omega

/-- The full angle-normalisation sequence of `Walker.update`: the
subtract-`2π` loop followed by the add-`2π` loop. -/
noncomputable def normalize (x : ℝ) : ℝ := wrapUp (wrapDown x)

end

end Angle

namespace App5

open Angle

/-- Animation clip currently cross-faded in (`this.currentAnimation` of the
Walker in src/app5/main.js: one of the strings idle / walking / special). -/
inductive Anim where
  | idle
  | walking
  | special

/-- Per-avatar walker state, embedding the fields of `class Walker` in
src/app5/main.js (lines 832-883) that the checked properties read or write,
together with the avatar transform it mutates (`character.position.x/z`,
`character.rotation0.y`).  `isReady` stands for `gvrm.isReady`. -/
structure Walker where
  isReady : Bool
  animationsLoaded : Bool
  isPlayingSpecial : Bool
  isWalking : Bool
  currentAnimation : Anim
  shouldWalk : Bool
  walkTimer : ℕ
  walkDuration : ℝ
  stopDuration : ℝ
  targetX : ℝ
  targetZ : ℝ
  targetRotation : ℝ
  currentRotation : ℝ
  justChangedTarget : Bool
  posX : ℝ
  posZ : ℝ
  rot0Y : ℝ

/-- Constant `this.speed = 0.03` (line 837). -/
def speed : ℝ := 0.03

/-- Constant `this.boundary = 11.25` (line 850). -/
def boundary : ℝ := 11.25

/-- Constant `this.arrivalThreshold = 0.15` (line 860). -/
def arrivalThreshold : ℝ := 0.15

/-- Constant `const safetyMargin = 0.5` (line 1013). -/
def safetyMargin : ℝ := 0.5

/-- Constant `const rotationThreshold = 0.1` (line 984). -/
def rotationThreshold : ℝ := 0.1

/-- One frame's worth of `Math.random()` draws consumed by `update()`:
duration re-draw, arrival re-target, gesture roll, boundary re-target. -/
structure Rand where
  rDur : ℝ
  rTx : ℝ
  rTz : ℝ
  rGesture : ℝ
  rBx : ℝ
  rBz : ℝ

noncomputable section

open scoped Classical

/-- Method `setNewTarget()` (lines 886-891): uniform target inside 85% of the
boundary, from two unit draws. -/
def setNewTarget (w : Walker) (rx rz : ℝ) : Walker :=
  { w with
    targetX := (rx - 0.5) * 2 * (boundary * 0.85)
    targetZ := (rz - 0.5) * 2 * (boundary * 0.85) }

/-- Method `switchToWalking()` (lines 1032-1050): no-op unless both clips are
loaded and the walk clip is not already active; cross-fade details are not
modelled, only the `currentAnimation` / `isWalking` flags. -/
def switchToWalking (w : Walker) : Walker :=
  if ¬ w.animationsLoaded then w
  else match w.currentAnimation with
    | Anim.walking => w
    | _ => { w with currentAnimation := Anim.walking, isWalking := true }

/-- Method `switchToIdle()` (lines 1052-1105): no-op unless the idle clip is loaded
and not already active; both the special-reload path and the normal path end
with the idle clip active and `isWalking`, `isPlayingSpecial` cleared. -/
def switchToIdle (w : Walker) : Walker :=
  if ¬ w.animationsLoaded then w
  else match w.currentAnimation with
    | Anim.idle => w
    | _ => { w with currentAnimation := Anim.idle, isWalking := false,
                    isPlayingSpecial := false }

/-- Walk/stop toggle of `update()` (lines 931-947): increment `walkTimer`,
flip `shouldWalk` on expiry, redraw the other duration, switch clips. -/
def toggleStep (w : Walker) (o : Rand) : Walker :=
  let w1 := { w with walkTimer := w.walkTimer + 1 }
  if w1.shouldWalk then
    if w1.walkDuration ≤ (w1.walkTimer : ℝ) then
      switchToIdle { w1 with shouldWalk := false, walkTimer := 0,
                             stopDuration := 60 + o.rDur * 120 }
    else w1
  else
    if w1.stopDuration ≤ (w1.walkTimer : ℝ) then
      switchToWalking { w1 with shouldWalk := true, walkTimer := 0,
                                walkDuration := 120 + o.rDur * 180 }
    else w1

/-- JavaScript `Math.atan2(y, x)` as the argument of the complex number `x + y*i`,
valued in `(-π, π]`. -/
def atan2 (y x : ℝ) : ℝ := Complex.arg ⟨x, y⟩

/-- Target-navigation block of `update()` (lines 950-968), run only while
`shouldWalk`: aim `targetRotation` at the target, and on arrival redraw the
target and roll a 33% chance to request a special gesture.  The returned
flag records that `playRandomSpecialAnimation()` was called; its state
effects land asynchronously (after its internal awaits), not in this frame.
The block never moves the avatar. -/
def navStep (w : Walker) (o : Rand) : Walker × Bool :=
  if w.shouldWalk then
    let dx := w.targetX - w.posX
    let dz := w.targetZ - w.posZ
    let distanceToTarget := Real.sqrt (dx * dx + dz * dz)
    let w1 := { w with targetRotation := atan2 dx dz - w.rot0Y }
    if distanceToTarget < arrivalThreshold then
      (setNewTarget w1 o.rTx o.rTz, decide (o.rGesture < 0.33))
    else (w1, false)
  else (w, false)

/-- Rotation block of `update()` (lines 971-985): normalise the yaw error,
advance `currentRotation` by 10% of it, re-normalise, and report the
(normalised) error used for the `isRotationComplete` test. -/
def rotStep (w : Walker) : Walker × ℝ :=
  let rotDiff := Angle.normalize (w.targetRotation - w.currentRotation)
  ({ w with currentRotation :=
      Angle.normalize (w.currentRotation + rotDiff * 0.1) }, rotDiff)

/-- Movement block of `update()` (lines 994-1029): step forward along the
compensated heading once rotation is complete; positions that would leave
`|·| < boundary - safetyMargin` are clamped there, re-targeting unless the
one-second debounce flag is up. -/
def moveStep (w : Walker) (rotDiff : ℝ) (o : Rand) : Walker :=
  if w.shouldWalk ∧ w.isWalking ∧ |rotDiff| < rotationThreshold then
    let fx := Real.sin (w.currentRotation - w.rot0Y)
    let fz := Real.cos (w.currentRotation - w.rot0Y)
    let newX := w.posX + speed * fx
    let newZ := w.posZ + speed * fz
    if |newX| < boundary - safetyMargin ∧ |newZ| < boundary - safetyMargin then
      { w with posX := newX, posZ := newZ }
    else
      let w1 := { w with
        posX := max (-boundary + safetyMargin) (min (boundary - safetyMargin) newX)
        posZ := max (-boundary + safetyMargin) (min (boundary - safetyMargin) newZ) }
      if ¬ w1.justChangedTarget then
        { setNewTarget w1 o.rBx o.rBz with justChangedTarget := true }
      else w1
  else w

/-- Method `Walker.update()` (lines 919-1030).  Early-outs when the avatar is not
ready, clips are not loaded, or a special gesture is playing; otherwise runs
the toggle, navigation, rotation and movement blocks in source order.  The
second component reports whether `playRandomSpecialAnimation()` was invoked
this frame. -/
def update (w : Walker) (o : Rand) : Walker × Bool :=
  if ¬ w.isReady ∨ ¬ w.animationsLoaded then (w, false)
  else if w.isPlayingSpecial then (w, false)
  else
    let w1 := toggleStep w o
    let wn := navStep w1 o
    let wr := rotStep wn.1
    (moveStep wr.1 wr.2 o, wn.2)

/-- Constructor `new Walker(gvrm, index)` (lines 833-883): random walk/stop
durations, a 50% initial `shouldWalk`, a random target, and a uniformly
random initial yaw `(r - 0.5) * π * 2`. The position and `rotation0` live
on the avatar and are passed in. -/
def init (isReady : Bool) (posX posZ rot0Y : ℝ)
    (rWalkDur rStopDur rShould rRot rTx rTz : ℝ) : Walker :=
  setNewTarget
    { isReady := isReady
      animationsLoaded := false
      isPlayingSpecial := false
      isWalking := false
      currentAnimation := Anim.idle
      shouldWalk := decide (0.5 < rShould)
      walkTimer := 0
      walkDuration := 120 + rWalkDur * 180
      stopDuration := 60 + rStopDur * 120
      targetX := 0
      targetZ := 0
      targetRotation := 0
      currentRotation := (rRot - 0.5) * Real.pi * 2
      justChangedTarget := false
      posX := posX
      posZ := posZ
      rot0Y := rot0Y } rTx rTz

end

end App5

namespace Interaction2

/-- Frame-count lifecycle state of `class Interaction`
(src/app2/interaction.js lines 7-30): the active flag, the elapsed-frame
counter and the fixed duration.  `endCount` instruments how many times
`end()` has run, so that at-most-once invocation is provable. -/
structure Interaction where
  isActive : Bool
  frameCount : ℕ
  duration : ℕ
  endCount : ℕ
  deriving DecidableEq, Repr

/-- Constructor state (lines 15-21): inactive, `frameCount = 0`,
`duration = 7.5 * 60 = 450` frames. -/
def mkInteraction : Interaction :=
  { isActive := false, frameCount := 0, duration := 450, endCount := 0 }

/-- Method `end()` (lines 157-167) restricted to the lifecycle fields: clears
`isActive` (walker restoration is embedded separately). -/
def endI (s : Interaction) : Interaction :=
  { s with isActive := false, endCount := s.endCount + 1 }

/-- The synchronous lifecycle effect of `start()` (lines 33-36): set
`isActive`, reset `frameCount`. -/
def start (s : Interaction) : Interaction :=
  { s with isActive := true, frameCount := 0 }

/-- Method `update()` (lines 141-154): ignore when inactive, else increment
`frameCount` and call `end()` as soon as it reaches `duration`; the
per-variant `onUpdate` hook does not touch these fields. -/
def update (s : Interaction) : Interaction :=
  if ¬ s.isActive then s
  else
    let s1 := { s with frameCount := s.frameCount + 1 }
    if s1.duration ≤ s1.frameCount then endI s1 else s1

end Interaction2

namespace InteractionGeom

/-- A THREE.Vector3 value. -/
structure Vec3 where
  x : ℝ
  y : ℝ
  z : ℝ

noncomputable section

open scoped Classical

/-- THREE `Vector3.length()`. -/
def vlength (v : Vec3) : ℝ := Real.sqrt (v.x ^ 2 + v.y ^ 2 + v.z ^ 2)

/-- THREE `new THREE.Vector3().subVectors(a, b)`. -/
def vsub (a b : Vec3) : Vec3 := ⟨a.x - b.x, a.y - b.y, a.z - b.z⟩

/-- THREE `a.distanceTo(b)`, used by `Interaction.getDistance()`
(src/app2/interaction.js lines 175-179). -/
def vdist (a b : Vec3) : ℝ := vlength (vsub a b)

/-- THREE `Vector3.normalize()`: divide by the length, or by 1 when the length is
zero (THREE's `divideScalar(this.length() || 1)` guard). -/
def vnormalize (v : Vec3) : Vec3 :=
  if vlength v = 0 then v
  else ⟨v.x / vlength v, v.y / vlength v, v.z / vlength v⟩

/-- Constant `this.interactionDistance = 0.8` (src/app2/interaction.js line 24). -/
def interactionDistance : ℝ := 0.8

/-- The temporary-target computation of `moveAvatarsTogether()`
(src/app2/interaction.js lines 57-94), returning `(target1, target2)`.
Both branches are transcribed as written; the close branch's
`const walkDistance = 3` is declared in the source but never used. -/
def moveAvatarsTogetherTargets (pos1 pos2 : Vec3) : Vec3 × Vec3 :=
  let currentDistance := vdist pos1 pos2
  if currentDistance < interactionDistance * 2 then
    let direction := vnormalize (vsub pos2 pos1)
    let midpoint : Vec3 := ⟨(pos1.x + pos2.x) / 2, 0, (pos1.z + pos2.z) / 2⟩
    (⟨midpoint.x - direction.x * (interactionDistance / 2),
      midpoint.y - direction.y * (interactionDistance / 2),
      midpoint.z - direction.z * (interactionDistance / 2)⟩,
     ⟨midpoint.x + direction.x * (interactionDistance / 2),
      midpoint.y + direction.y * (interactionDistance / 2),
      midpoint.z + direction.z * (interactionDistance / 2)⟩)
  else
    let midpoint : Vec3 := ⟨(pos1.x + pos2.x) / 2, 0, (pos1.z + pos2.z) / 2⟩
    let direction := vnormalize (vsub pos2 pos1)
    let halfDistance := interactionDistance / 2
    (⟨midpoint.x - direction.x * halfDistance,
      midpoint.y - direction.y * halfDistance,
      midpoint.z - direction.z * halfDistance⟩,
     ⟨midpoint.x + direction.x * halfDistance,
      midpoint.y + direction.y * halfDistance,
      midpoint.z + direction.z * halfDistance⟩)

end

end InteractionGeom

namespace Manager4

/-- Method `InteractionManager.shouldStartInteraction(currentHour)`
(src/app4/main.js lines 802-826).  `activeIsActive` stands for
`this.activeInteraction && this.activeInteraction.isActive`; `gvrms` is the
avatar list, with each entry's `isReady` flag (only its length is read
here).  Hours are integers (`Math.floor(virtualTime)`), with `-1` as the
never-interacted sentinel. -/
def shouldStartInteraction (activeIsActive : Bool)
    (lastInteractionHour currentHour : ℤ) (gvrms : List Bool) : Bool :=
  if activeIsActive then false
  else if lastInteractionHour ≠ -1 ∧
      ((currentHour - lastInteractionHour < 4 ∧
        0 ≤ currentHour - lastInteractionHour) ∨
       (currentHour < lastInteractionHour ∧
        24 - lastInteractionHour + currentHour < 4)) then false
  else if gvrms.length < 2 then false
  else true

/-- The number of ready avatars in the list. -/
def readyCount (gvrms : List Bool) : ℕ := (gvrms.filter (fun b => b)).length

/-- The start condition as the specification words it (spec 4.3 and the
claim): no active interaction, cooldown of 4 wrapped hours elapsed (or no
interaction ever), and at least 2 avatars exist AND are ready.  Written
from the spec, for comparison with `shouldStartInteraction` above. -/
def shouldStartInteractionSpec (activeIsActive : Bool)
    (lastInteractionHour currentHour : ℤ) (gvrms : List Bool) : Bool :=
  (!activeIsActive) &&
  (decide (lastInteractionHour = -1) ||
   decide (4 ≤ (currentHour - lastInteractionHour) % 24)) &&
  decide (2 ≤ readyCount gvrms)

/-- Manager state touched by `startNewInteraction`
(src/app4/main.js lines 640-647, 829-864): the sentinel hour, the active
interaction slot and the avatar readiness list. -/
structure MState where
  lastInteractionHour : ℤ
  active : Option Interaction2.Interaction
  gvrms : List Bool
  deriving DecidableEq

/-- Flag `this.activeInteraction && this.activeInteraction.isActive`. -/
def activeIsActive (m : MState) : Bool :=
  match m.active with
  | some s => s.isActive
  | none => false

/-- Method `startNewInteraction(currentHour)` (src/app4/main.js lines 829-864),
with the random pair draw of `selectTwoRandomAvatars` (lines 685-704)
passed in as the chosen indices `i1, i2`.  Mirrors the source order: the
guard, then `this.lastInteractionHour = currentHour`, then the null-pair
check, then the readiness check (returning with the hour already written),
then starting the selected interaction. -/
def startNewInteraction (m : MState) (currentHour : ℤ) (i1 i2 : ℕ) : MState :=
  if ¬ shouldStartInteraction (activeIsActive m) m.lastInteractionHour
      currentHour m.gvrms then m
  else
    let m1 := { m with lastInteractionHour := currentHour }
    if m1.gvrms.length < 2 then m1
    else if ¬ (m1.gvrms.getD i1 false ∧ m1.gvrms.getD i2 false) then m1
    else { m1 with active := some (Interaction2.start Interaction2.mkInteraction) }

end Manager4

namespace Select4

/-- The 25 interaction variants registered in
`InteractionManager.interactionTypes` (src/app4/main.js lines 650-676), in
source order. -/
inductive IKind where
  | greeting
  | danceParty
  | chickenDance
  | listening
  | pointing
  | warriorPose
  | dizzySpin
  | flyingDream
  | shrug
  | combatTraining
  | happyMeeting
  | breathingExercise
  | walkTogether
  | morningGreeting
  | eveningGoodbye
  | nearHouseMeeting
  | farDistanceWave
  | circleDance
  | mutualPointing
  | nightSkyGazing
  | flyingShow
  | listeningCircle
  | warriorCombat
  | relaxBreak
  | mixedDanceParty
  deriving DecidableEq, Repr

/-- Field `this.interactionTypes` in source order. -/
def interactionTypes : List IKind :=
  [IKind.greeting, IKind.danceParty, IKind.chickenDance, IKind.listening,
   IKind.pointing, IKind.warriorPose, IKind.dizzySpin, IKind.flyingDream,
   IKind.shrug, IKind.combatTraining, IKind.happyMeeting,
   IKind.breathingExercise, IKind.walkTogether, IKind.morningGreeting,
   IKind.eveningGoodbye, IKind.nearHouseMeeting, IKind.farDistanceWave,
   IKind.circleDance, IKind.mutualPointing, IKind.nightSkyGazing,
   IKind.flyingShow, IKind.listeningCircle, IKind.warriorCombat,
   IKind.relaxBreak, IKind.mixedDanceParty]

/-- Per-variant weight from the `forEach` body of `selectInteraction`
(src/app4/main.js lines 734-766): base 1.0, the three override chains
(time of day, inter-avatar distance, house proximity) and the flat
category multipliers, in source order. -/
def weight (k : IKind) (timeOfDay distance dHouse1 dHouse2 : ℚ) : ℚ :=
  let w : ℚ := 1.0
  let w :=
    if k = IKind.morningGreeting then
      if 6 ≤ timeOfDay ∧ timeOfDay < 12 then 3.0 else 0.5
    else if k = IKind.eveningGoodbye then
      if 18 ≤ timeOfDay ∨ timeOfDay < 6 then 3.0 else 0.5
    else if k = IKind.nightSkyGazing then
      if (18 ≤ timeOfDay ∧ timeOfDay ≤ 24) ∨ (0 ≤ timeOfDay ∧ timeOfDay < 6)
      then 3.0 else 0.3
    else w
  let w :=
    if k = IKind.farDistanceWave then
      if 7 < distance then 3.0 else 0.3
    else if k = IKind.walkTogether then
      if distance < 3 then 2.0 else 0.5
    else w
  let w :=
    if k = IKind.nearHouseMeeting then
      if dHouse1 < 5 ∨ dHouse2 < 5 then 3.0 else 0.3
    else w
  let w :=
    if k = IKind.greeting ∨ k = IKind.happyMeeting then w * 1.5
    else if k = IKind.danceParty ∨ k = IKind.chickenDance then w * 0.8
    else w
  w

/-- The `weights` array built by `selectInteraction`. -/
def weightedList (timeOfDay distance dHouse1 dHouse2 : ℚ) :
    List (IKind × ℚ) :=
  interactionTypes.map (fun k => (k, weight k timeOfDay distance dHouse1 dHouse2))

/-- Total `weights.reduce((sum, item) => sum + item.weight, 0)`. -/
def totalWeight (timeOfDay distance dHouse1 dHouse2 : ℚ) : ℚ :=
  (weightedList timeOfDay distance dHouse1 dHouse2).foldl
    (fun s p => s + p.2) 0

/-- The selection walk of `selectInteraction` (src/app4/main.js lines
771-790): subtract each weight from the draw in turn and return the first
variant at which the remainder is non-positive; `none` when the list is
exhausted without a pick. -/
def pick (r : ℚ) : List (IKind × ℚ) → Option IKind
  | [] => none
  | (k, w) :: rest => if r - w ≤ 0 then some k else pick (r - w) rest

/-- Method `selectInteraction` (src/app4/main.js lines 724-799) restricted to the
selected variant: the weighted walk over the context-dependent weights with
the `GreetingInteraction` fallback of lines 792-798. -/
def selectInteraction (timeOfDay distance dHouse1 dHouse2 r : ℚ) : IKind :=
  (pick r (weightedList timeOfDay distance dHouse1 dHouse2)).getD IKind.greeting

/-- Sum of the first `n` weights of a weight list. -/
def cumWeight (l : List (IKind × ℚ)) (n : ℕ) : ℚ :=
  ((l.take n).map Prod.snd).sum

end Select4

namespace WalkerI

/-- Modelled from the spec: the interaction-capable Walker (the `walker.js`
imported by the interaction apps, carrying `inInteraction` and
`setTemporaryTarget`) is not under src/; only its callers are
(src/app2/interaction.js writes `inInteraction` and calls
`setTemporaryTarget`).  State per spec section 3 and 4.1: wandering target,
walk/stop toggle counters, the `shouldWalk` gate, the `inInteraction`
suspension flag, the special-gesture flag, and the one-off temporary-target
override. -/
structure Walker where
  posX : ℚ
  posZ : ℚ
  targetX : ℚ
  targetZ : ℚ
  shouldWalk : Bool
  isWalking : Bool
  inInteraction : Bool
  isPlayingSpecial : Bool
  walkTimer : ℕ
  walkDuration : ℕ
  stopDuration : ℕ
  tempTarget : Option (ℚ × ℚ)
  deriving DecidableEq

/-- Modelled from the spec: fixed walking speed per frame (spec 4.1,
"fixed speed"; `0.03` as in the src/app5 variant). -/
def speed : ℚ := 0.03

/-- Modelled from the spec: normal arrival threshold (spec 4.1,
"e.g. 0.15 units"). -/
def arrivalThreshold : ℚ := 0.15

/-- Modelled from the spec: the stricter arrival threshold used while a
temporary target is active (spec 4.1 gives no number, only "stricter"). -/
def tempArrivalThreshold : ℚ := 0.1

/-- Squared distance between `(x, z)` and `(tx, tz)`; thresholds are
compared against squared distances to stay inside ℚ. -/
def sqDist (x z tx tz : ℚ) : ℚ := (tx - x) ^ 2 + (tz - z) ^ 2

/-- One coordinate of a frame's movement: step toward the target by at most
`speed` (a ℚ-exact rendering of constant-speed travel toward the target,
spec 4.1 "only translates forward (fixed speed)"). -/
def stepCoord (x t : ℚ) : ℚ :=
  if speed < t - x then x + speed
  else if speed < x - t then x - speed
  else t

/-- Modelled from the spec: per-frame random draws consumed by `update` —
the redrawn wander target, a redrawn toggle duration, and the 33%
special-gesture roll. -/
structure Rand where
  tX : ℚ
  tZ : ℚ
  dur : ℕ
  gesture : Bool

/-- Modelled from the spec (4.1 "Temporary-target override"):
`setTemporaryTarget(x, z, callback)` records the one-off destination and
makes the walker head there (the callback is represented by the Boolean
result of `update`).  The gesture sub-state is not touched. -/
def setTemporaryTarget (w : Walker) (x z : ℚ) : Walker :=
  { w with tempTarget := some (x, z), shouldWalk := true, isWalking := true }

/-- Modelled from the spec (4.1 "Suspend/resume" and the flag writes of
`Interaction.start`, src/app2/interaction.js lines 46-51): force
`isWalking = false`, `shouldWalk = false`, `inInteraction = true`. -/
def suspend (w : Walker) : Walker :=
  { w with isWalking := false, shouldWalk := false, inInteraction := true }

/-- The flag restoration of `Interaction.end` (src/app2/interaction.js
lines 161-164): put back the saved `isWalking`, clear `inInteraction`. -/
def resume (w : Walker) (savedIsWalking : Bool) : Walker :=
  { w with isWalking := savedIsWalking, inInteraction := false }

/-- Modelled from the spec: one frame of the interaction-capable walker.
Spec 4.1: `update()` is a no-op while suspended for an interaction
(`inInteraction`) and while a special gesture plays; while a temporary
target is active it replaces normal target selection and the completion
callback fires (result `true`) exactly on arrival within the stricter
threshold, clearing the override; otherwise the normal walk/stop toggle,
wander-target navigation with re-target on arrival, and the 33% gesture
roll run as usual. -/
def update (w : Walker) (o : Rand) : Walker × Bool :=
  if w.inInteraction then (w, false)
  else if w.isPlayingSpecial then (w, false)
  else
    match w.tempTarget with
    | some t =>
      let x1 := stepCoord w.posX t.1
      let z1 := stepCoord w.posZ t.2
      if sqDist x1 z1 t.1 t.2 < tempArrivalThreshold ^ 2 then
        ({ w with posX := x1, posZ := z1, tempTarget := none }, true)
      else
        ({ w with posX := x1, posZ := z1 }, false)
    | none =>
      let w1 := { w with walkTimer := w.walkTimer + 1 }
      let w2 :=
        if w1.shouldWalk then
          if w1.walkDuration ≤ w1.walkTimer then
            { w1 with shouldWalk := false, isWalking := false,
                      walkTimer := 0, stopDuration := o.dur }
          else w1
        else
          if w1.stopDuration ≤ w1.walkTimer then
            { w1 with shouldWalk := true, isWalking := true,
                      walkTimer := 0, walkDuration := o.dur }
          else w1
      if w2.shouldWalk then
        let x1 := stepCoord w2.posX w2.targetX
        let z1 := stepCoord w2.posZ w2.targetZ
        if sqDist x1 z1 w2.targetX w2.targetZ < arrivalThreshold ^ 2 then
          let w3 := { w2 with posX := x1, posZ := z1,
                              targetX := o.tX, targetZ := o.tZ }
          if o.gesture then
            ({ w3 with isPlayingSpecial := true, shouldWalk := false,
                       isWalking := false, walkTimer := 0 }, false)
          else (w3, false)
        else ({ w2 with posX := x1, posZ := z1 }, false)
      else (w2, false)

/-- The walker after `n` frames driven by the oracle stream `os`. -/
def run (w : Walker) (os : ℕ → Rand) : ℕ → Walker
  | 0 => w
  | n + 1 => (update (run w os n) (os n)).1

/-- Whether the completion callback fires on frame `n` of the run. -/
def firedAt (w : Walker) (os : ℕ → Rand) (n : ℕ) : Bool :=
  (update (run w os n) (os n)).2

end WalkerI

namespace App5

noncomputable section

/-- A concrete walker state: ready, clips loaded, currently stopped
(`shouldWalk = false` with a fresh stop timer), standing at `x = 11` —
within the spawn range of `loadAllModels` (src/app5/main.js lines 506-521
draw initial positions in `(-boundary, boundary)`), but outside the safe
sub-region `|x| < boundary - safetyMargin`. -/
def wOutEx : Walker :=
  { isReady := true
    animationsLoaded := true
    isPlayingSpecial := false
    isWalking := false
    currentAnimation := Anim.idle
    shouldWalk := false
    walkTimer := 0
    walkDuration := 200
    stopDuration := 60
    targetX := 0
    targetZ := 0
    targetRotation := 0
    currentRotation := 0
    justChangedTarget := false
    posX := 11
    posZ := 0
    rot0Y := 0 }

/-- A concrete walker state turning toward yaw 1 from yaw 0. -/
def wYawEx : Walker :=
  { wOutEx with targetRotation := 1, currentRotation := 0 }

/-- A fixed frame of random draws. -/
def randEx : Rand :=
  { rDur := 0, rTx := 0, rTz := 0, rGesture := 1, rBx := 0, rBz := 0 }

end

end App5

namespace WalkerI

/-- A concrete interaction-walker one step short of its temporary target:
at `(0, 0)` heading for the override destination `(0.05, 0)`. -/
def wTempEx : Walker :=
  { posX := 0
    posZ := 0
    targetX := 5
    targetZ := 5
    shouldWalk := true
    isWalking := true
    inInteraction := false
    isPlayingSpecial := false
    walkTimer := 0
    walkDuration := 100
    stopDuration := 50
    tempTarget := some (0.05, 0) }

/-- A fixed frame of spec-walker draws. -/
def randWEx : Rand := { tX := 3, tZ := 3, dur := 70, gesture := false }

end WalkerI

namespace Angle

theorem wrapDown_le (x : ℝ) : wrapDown x ≤ Real.pi := by
  induction x using wrapDown.induct with
  | case1 x h ih => rw [wrapDown]; simp only [dif_pos h]; exact ih
  | case2 x h => rw [wrapDown]; simp only [dif_neg h]; linarith [not_lt.mp h]

theorem wrapDown_ge (x : ℝ) (hx : -Real.pi ≤ x) : -Real.pi ≤ wrapDown x := by
  induction x using wrapDown.induct with
  | case1 x h ih =>
    rw [wrapDown]; simp only [dif_pos h]
    exact ih (by have := Real.pi_pos; linarith)
  | case2 x h => rw [wrapDown]; simp only [dif_neg h]; exact hx

theorem wrapDown_congr (x : ℝ) : ∃ k : ℤ, wrapDown x = x - 2 * Real.pi * k := by
  induction x using wrapDown.induct with
  | case1 x h ih =>
    obtain ⟨k, hk⟩ := ih
    refine ⟨k + 1, ?_⟩
    rw [wrapDown]; simp only [dif_pos h]
    rw [hk]; push_cast; ring
  | case2 x h =>
    refine ⟨0, ?_⟩
    rw [wrapDown]; simp only [dif_neg h]; push_cast; ring

theorem wrapDown_of_le (x : ℝ) (hx : x ≤ Real.pi) : wrapDown x = x := by
  rw [wrapDown]
  simp only [dif_neg (not_lt.mpr hx)]

theorem wrapUp_ge (x : ℝ) : -Real.pi ≤ wrapUp x := by
  induction x using wrapUp.induct with
  | case1 x h ih => rw [wrapUp]; simp only [dif_pos h]; exact ih
  | case2 x h => rw [wrapUp]; simp only [dif_neg h]; linarith [not_lt.mp h]

theorem wrapUp_le (x : ℝ) (hx : x ≤ Real.pi) : wrapUp x ≤ Real.pi := by
  induction x using wrapUp.induct with
  | case1 x h ih =>
    rw [wrapUp]; simp only [dif_pos h]
    exact ih (by have := Real.pi_pos; linarith)
  | case2 x h => rw [wrapUp]; simp only [dif_neg h]; exact hx

theorem wrapUp_congr (x : ℝ) : ∃ k : ℤ, wrapUp x = x + 2 * Real.pi * k := by
  induction x using wrapUp.induct with
  | case1 x h ih =>
    obtain ⟨k, hk⟩ := ih
    refine ⟨k + 1, ?_⟩
    rw [wrapUp]; simp only [dif_pos h]
    rw [hk]; push_cast; ring
  | case2 x h =>
    refine ⟨0, ?_⟩
    rw [wrapUp]; simp only [dif_neg h]; push_cast; ring

theorem wrapUp_of_ge (x : ℝ) (hx : -Real.pi ≤ x) : wrapUp x = x := by
  rw [wrapUp]
  simp only [dif_neg (not_lt.mpr hx)]

/-- The normalised angle always lands in `[-π, π]`. -/
theorem normalize_mem (x : ℝ) :
    -Real.pi ≤ normalize x ∧ normalize x ≤ Real.pi :=
  ⟨wrapUp_ge _, wrapUp_le _ (wrapDown_le x)⟩

/-- Normalisation shifts the input by an integer multiple of `2π`. -/
theorem normalize_congr (x : ℝ) : ∃ k : ℤ, normalize x = x - 2 * Real.pi * k := by
  obtain ⟨k₁, hk₁⟩ := wrapDown_congr x
  obtain ⟨k₂, hk₂⟩ := wrapUp_congr (wrapDown x)
  refine ⟨k₁ - k₂, ?_⟩
  rw [normalize, hk₂, hk₁]; push_cast; ring

theorem normalize_of_mem (x : ℝ) (h₁ : -Real.pi ≤ x) (h₂ : x ≤ Real.pi) :
    normalize x = x := by
  rw [normalize, wrapDown_of_le x h₂, wrapUp_of_ge x h₁]

/-- Normalisation is determined by congruence: any representative strictly
inside `(-π, π)` is the normalised value. -/
theorem normalize_eq_of_congr (x y : ℝ) (h₁ : -Real.pi < y) (h₂ : y < Real.pi)
    (hc : ∃ k : ℤ, x - y = 2 * Real.pi * k) : normalize x = y := by
  obtain ⟨k, hk⟩ := hc
  obtain ⟨m, hm⟩ := normalize_congr x
  obtain ⟨hl, hr⟩ := normalize_mem x
  have hpi := Real.pi_pos
  have hd : normalize x - y = 2 * Real.pi * (k - m : ℤ) := by
    rw [hm]; push_cast; linarith [hk]
  have habs : |normalize x - y| < 2 * Real.pi := by
    rw [abs_lt]; constructor <;> linarith
  rw [hd] at habs
  have h2 : (0:ℝ) < 2 * Real.pi := by linarith
  rw [abs_mul, abs_of_pos h2] at habs
  have : |((k - m : ℤ) : ℝ)| < 1 := by
    by_contra hc1
    push_neg at hc1
    nlinarith
  have hz : (k - m : ℤ) = 0 := by
    rw [abs_lt] at this
    have hlt : ((k - m : ℤ) : ℝ) < 1 := this.2
    have hgt : (-1 : ℝ) < ((k - m : ℤ) : ℝ) := this.1
    have hlt2 : (k - m : ℤ) < 1 := by exact_mod_cast hlt
    have hgt2 : (-1 : ℤ) < (k - m : ℤ) := by exact_mod_cast hgt
    omega
  rw [hz] at hd
  push_cast at hd
  linarith


end Angle

theorem WalkerI.update_of_inInteraction (w : WalkerI.Walker) (o : WalkerI.Rand)
    (h : w.inInteraction = true) : WalkerI.update w o = (w, false) := by
  simp [WalkerI.update, h]

/-- Claim C1: once a Walker is suspended for an interaction
(`Interaction.start` forces `shouldWalk = false` and sets `inInteraction`,
src/app2/interaction.js lines 46-51), every subsequent `update()` skips all
normal behavior and special-gesture triggering — the state is left entirely
unchanged and the temporary-target callback never fires — and in particular
`shouldWalk` stays `false` for the whole suspension. -/
theorem suspended_walker_updates_are_skipped (w : WalkerI.Walker)
    (os : ℕ → WalkerI.Rand) (n : ℕ) :
    WalkerI.run (WalkerI.suspend w) os n = WalkerI.suspend w ∧
    (WalkerI.run (WalkerI.suspend w) os n).shouldWalk = false ∧
    WalkerI.firedAt (WalkerI.suspend w) os n = false := by
  have hrun : WalkerI.run (WalkerI.suspend w) os n = WalkerI.suspend w := by
    induction n with
    | zero => rfl
    | succ m ih =>
      show (WalkerI.update (WalkerI.run (WalkerI.suspend w) os m) (os m)).1 = _
      rw [ih, WalkerI.update_of_inInteraction _ _ rfl]
  refine ⟨hrun, ?_, ?_⟩
  · rw [hrun]; rfl
  · show (WalkerI.update (WalkerI.run (WalkerI.suspend w) os n) (os n)).2 = false
    rw [hrun, WalkerI.update_of_inInteraction _ _ rfl]

theorem Interaction2.run_eq (n : ℕ) :
    Interaction2.update^[n] (Interaction2.start Interaction2.mkInteraction) =
      if n < 450 then ⟨true, n, 450, 0⟩ else ⟨false, 450, 450, 1⟩ := by
  induction n with
  | zero => rfl
  | succ m ih =>
    rw [Function.iterate_succ_apply', ih]
    by_cases hm : m < 450
    · rw [if_pos hm]
      by_cases hm1 : m + 1 < 450
      · rw [if_pos hm1]
        simp only [Interaction2.update, Interaction2.endI]
        rw [if_neg (show ¬ ((450:ℕ) ≤ m + 1) by omega)]
        simp
      · have hm450 : m + 1 = 450 := by omega
        rw [if_neg hm1]
        simp only [Interaction2.update, Interaction2.endI]
        rw [if_pos (show (450:ℕ) ≤ m + 1 by omega)]
        simp [hm450]
    · rw [if_neg hm, if_neg (by omega)]
      simp [Interaction2.update]

/-- Claim C4: an Interaction's `frameCount` is `0` immediately after
`start()`, is non-decreasing across `update()` calls (it equals
`min n duration` after `n` updates), and `end()` runs exactly once —
`endCount` flips from `0` to `1` precisely at update number 450, the first
call at which the incremented `frameCount` reaches `duration = 450`. -/
theorem interaction_frameCount_end_once (n : ℕ) :
    (Interaction2.start Interaction2.mkInteraction).frameCount = 0 ∧
    (Interaction2.update^[n]
      (Interaction2.start Interaction2.mkInteraction)).frameCount = min n 450 ∧
    (Interaction2.update^[n]
        (Interaction2.start Interaction2.mkInteraction)).frameCount ≤
      (Interaction2.update^[n + 1]
        (Interaction2.start Interaction2.mkInteraction)).frameCount ∧
    (Interaction2.update^[n]
      (Interaction2.start Interaction2.mkInteraction)).endCount =
        if 450 ≤ n then 1 else 0 := by
  refine ⟨rfl, ?_, ?_, ?_⟩
  · rw [Interaction2.run_eq]
    split <;> simp <;> omega
  · rw [Interaction2.run_eq, Interaction2.run_eq]
    split <;> split <;> simp <;> omega
  · rw [Interaction2.run_eq]
    by_cases h : n < 450
    · rw [if_pos h, if_neg (show ¬ (450 ≤ n) by omega)]
    · rw [if_neg h, if_pos (show 450 ≤ n by omega)]

/-- Claim C3, counterexample: `shouldStartInteraction` does not check avatar
readiness.  With two existing but unready avatars (no active interaction,
no previous interaction) the code returns `true`, while the claimed
condition "at least 2 avatars exist and are ready" — transcribed as
`shouldStartInteractionSpec` — is `false`. -/
theorem shouldStartInteraction_readiness_counterexample :
    Manager4.shouldStartInteraction false (-1) 8 [false, false] = true ∧
    Manager4.shouldStartInteractionSpec false (-1) 8 [false, false] = false ∧
    Manager4.readyCount [false, false] = 0 := by
  refine ⟨by decide, by decide, by decide⟩

/-- Claim C3 (amended): for in-range hours, `shouldStartInteraction` returns
`true` iff no Interaction is active, at least 4 wrapped virtual hours have
elapsed since the last start (or none ever started), and at least 2 avatars
EXIST — readiness is not consulted here (it is only checked later, in
`startNewInteraction`).  In particular with `lastInteractionHour = 22` it is
false at hour 1 (wrapped elapsed 3) and true at hour 2 (wrapped elapsed 4),
and false whenever an interaction is active. -/
theorem shouldStartInteraction_amended (a : Bool) (lh cur : ℤ) (l : List Bool)
    (hcur : 0 ≤ cur ∧ cur < 24) (hlh : lh = -1 ∨ (0 ≤ lh ∧ lh < 24)) :
    Manager4.shouldStartInteraction a lh cur l = true ↔
      (a = false ∧ 2 ≤ l.length ∧ (lh = -1 ∨ 4 ≤ (cur - lh) % 24)) := by
  cases a with
  | true => simp [Manager4.shouldStartInteraction]
  | false =>
    simp only [Manager4.shouldStartInteraction, if_false, Bool.false_eq_true]
    split_ifs with h1 h2
    · simp only [Bool.false_eq_true, false_iff]
      rintro ⟨-, hlen, hc⟩
      obtain ⟨hne, hd⟩ := h1
      rcases hc with hc | hc
      · exact hne hc
      · rcases hlh with h | h
        · exact hne h
        · rcases hd with hd | hd <;> omega
    · simp only [Bool.false_eq_true, false_iff]
      rintro ⟨-, hlen, -⟩
      omega
    · simp only [true_iff]
      push_neg at h1
      refine ⟨by simp, by omega, ?_⟩
      by_cases hne : lh = -1
      · exact Or.inl hne
      · refine Or.inr ?_
        have hd := h1 hne
        push_neg at hd
        rcases hlh with h | h
        · exact absurd h hne
        · obtain ⟨hd1, hd2⟩ := hd
          omega

/-- Witness for the amended C3 theorem at the spec's own wraparound
instances: `lastInteractionHour = 22` gives `false` at hour 1 and `true`
at hour 2. -/
theorem shouldStartInteraction_amended_witness :
    Manager4.shouldStartInteraction false 22 2 [true, true] = true ∧
    Manager4.shouldStartInteraction false 22 1 [true, true] = false := by
  constructor
  · rw [shouldStartInteraction_amended false 22 2 [true, true] (by omega)
      (Or.inr (by omega))]
    exact ⟨rfl, by decide, Or.inr (by decide)⟩
  · have h := shouldStartInteraction_amended false 22 1 [true, true] (by omega)
      (Or.inr (by omega))
    cases hb : Manager4.shouldStartInteraction false 22 1 [true, true] with
    | false => rfl
    | true => exact absurd (h.mp hb) (by decide)

theorem Manager4.shouldStart_false_of_small (a : Bool) (lh cur : ℤ)
    (l : List Bool) (h : l.length < 2) :
    Manager4.shouldStartInteraction a lh cur l = false := by
  simp only [Manager4.shouldStartInteraction]
  split_ifs with h1 h2 h3
  all_goals first | rfl | exact absurd h h3

theorem Manager4.shouldStart_true_len (a : Bool) (lh cur : ℤ)
    (l : List Bool) (h : Manager4.shouldStartInteraction a lh cur l = true) :
    2 ≤ l.length := by
  by_contra hc
  push_neg at hc
  rw [Manager4.shouldStart_false_of_small a lh cur l hc] at h
  exact absurd h (by simp)

/-- Claim C7, counterexample: with two existing but unready avatars
(`gvrms = [false, false]`, no active interaction, `lastInteractionHour =
-1`), `startNewInteraction` at hour 8 starts no interaction but does NOT
leave the state unchanged — it overwrites `lastInteractionHour` with 8
before the readiness check, so the retry is deferred by the cooldown
rather than re-attempted effectively every frame. -/
theorem startNewInteraction_unready_counterexample :
    Manager4.startNewInteraction ⟨-1, none, [false, false]⟩ 8 0 1 ≠
      (⟨-1, none, [false, false]⟩ : Manager4.MState) ∧
    (Manager4.startNewInteraction ⟨-1, none, [false, false]⟩ 8 0 1).active
      = none ∧
    (Manager4.startNewInteraction
      ⟨-1, none, [false, false]⟩ 8 0 1).lastInteractionHour = 8 := by
  exact ⟨by decide, by decide, by decide⟩

/-- Claim C7 (amended): when fewer than 2 avatars EXIST the Manager changes
nothing (so the attempt is retried every frame); but when at least 2 exist
and the start condition holds while the randomly selected pair is not fully
ready, `startNewInteraction` starts no interaction yet still records
`lastInteractionHour = currentHour`, deferring further attempts by the
4-hour cooldown. -/
theorem startNewInteraction_no_pair_amended (m : Manager4.MState)
    (cur : ℤ) (i1 i2 : ℕ) :
    (m.gvrms.length < 2 → Manager4.startNewInteraction m cur i1 i2 = m) ∧
    (Manager4.shouldStartInteraction (Manager4.activeIsActive m)
        m.lastInteractionHour cur m.gvrms = true →
      ¬ (m.gvrms.getD i1 false = true ∧ m.gvrms.getD i2 false = true) →
      Manager4.startNewInteraction m cur i1 i2 =
        { m with lastInteractionHour := cur }) := by
  constructor
  · intro h
    have hf := Manager4.shouldStart_false_of_small
      (Manager4.activeIsActive m) m.lastInteractionHour cur m.gvrms h
    simp [Manager4.startNewInteraction, hf]
  · intro hss hnr
    have hlen := Manager4.shouldStart_true_len _ _ _ _ hss
    simp only [Manager4.startNewInteraction, hss]
    rw [if_neg (by simp)]
    rw [if_neg (show ¬ (({ m with lastInteractionHour := cur } :
      Manager4.MState).gvrms.length < 2) by simpa using (by omega : ¬ (m.gvrms.length < 2)))]
    rw [if_pos (by simpa using hnr)]

/-- Witness for the amended C7 theorem: a one-avatar manager is untouched;
a two-avatar manager with an unready selected pair keeps `active = none`
but has its hour overwritten. -/
theorem startNewInteraction_no_pair_amended_witness :
    Manager4.startNewInteraction ⟨-1, none, [true]⟩ 8 0 1 =
      (⟨-1, none, [true]⟩ : Manager4.MState) ∧
    Manager4.startNewInteraction ⟨5, none, [false, true]⟩ 12 0 1 =
      (⟨12, none, [false, true]⟩ : Manager4.MState) := by
  constructor
  · exact (startNewInteraction_no_pair_amended ⟨-1, none, [true]⟩ 8 0 1).1
      (by decide)
  · exact (startNewInteraction_no_pair_amended ⟨5, none, [false, true]⟩
      12 0 1).2 (by decide) (by decide)

theorem Select4.foldl_add_eq_sum (l : List (Select4.IKind × ℚ)) (a : ℚ) :
    l.foldl (fun s p => s + p.2) a = a + (l.map Prod.snd).sum := by
  induction l generalizing a with
  | nil => simp
  | cons hd tl ih => simp [ih]; ring

theorem Select4.cumWeight_cons (p : Select4.IKind × ℚ)
    (rest : List (Select4.IKind × ℚ)) (n : ℕ) :
    Select4.cumWeight (p :: rest) (n + 1) = p.2 + Select4.cumWeight rest n := by
  simp [Select4.cumWeight]

theorem Select4.pick_none_iff (r : ℚ) (l : List (Select4.IKind × ℚ))
    (hpos : ∀ p ∈ l, 0 ≤ p.2) (hne : l ≠ []) :
    Select4.pick r l = none ↔ (l.map Prod.snd).sum < r := by
  induction l generalizing r with
  | nil => exact absurd rfl hne
  | cons hd tl ih =>
    simp only [Select4.pick]
    by_cases hw : r - hd.2 ≤ 0
    · rw [if_pos hw]
      simp only [reduceCtorEq, false_iff, not_lt]
      have h0 : (0:ℚ) ≤ (tl.map Prod.snd).sum := by
        apply List.sum_nonneg
        intro x hx
        obtain ⟨p, hp, hpe⟩ := List.mem_map.mp hx
        exact hpe ▸ hpos p (List.mem_cons_of_mem hd hp)
      simp only [List.map_cons, List.sum_cons]
      linarith
    · rw [if_neg hw]
      push_neg at hw
      by_cases htl : tl = []
      · subst htl
        simp only [Select4.pick, List.map_cons, List.map_nil, List.sum_cons,
          List.sum_nil, true_iff]
        linarith
      · rw [ih (r - hd.2) (fun p hp => hpos p (List.mem_cons_of_mem hd hp)) htl]
        simp only [List.map_cons, List.sum_cons]
        constructor <;> intro <;> linarith

theorem Select4.pick_some_spec (l : List (Select4.IKind × ℚ)) (r : ℚ)
    (k : Select4.IKind) (h : Select4.pick r l = some k) :
    ∃ i, ∃ hi : i < l.length, (l.get ⟨i, hi⟩).1 = k ∧
      r - Select4.cumWeight l (i + 1) ≤ 0 ∧
      ∀ j < i, 0 < r - Select4.cumWeight l (j + 1) := by
  induction l generalizing r with
  | nil => exact absurd h (by simp [Select4.pick])
  | cons hd tl ih =>
    rw [Select4.pick] at h
    by_cases hw : r - hd.2 ≤ 0
    · rw [if_pos hw] at h
      refine ⟨0, by simp, ?_, ?_, ?_⟩
      · exact Option.some.inj h
      · rw [Select4.cumWeight_cons]
        simpa [Select4.cumWeight] using hw
      · intro j hj
        omega
    · rw [if_neg hw] at h
      push_neg at hw
      obtain ⟨i, hi, hk, hle, hfirst⟩ := ih (r - hd.2) h
      refine ⟨i + 1, by simpa using Nat.succ_lt_succ hi, by simpa using hk, ?_, ?_⟩
      · rw [Select4.cumWeight_cons]
        linarith
      · intro j hj
        cases j with
        | zero => simpa [Select4.cumWeight] using hw
        | succ j0 =>
          rw [Select4.cumWeight_cons]
          have := hfirst j0 (by omega)
          linarith

theorem Select4.weight_pos (k : Select4.IKind) (t d h1 h2 : ℚ) :
    0 < Select4.weight k t d h1 h2 := by
  cases k <;>
    simp only [Select4.weight, reduceCtorEq, if_false, if_true, ite_false,
      ite_true, or_false, false_or, or_true, true_or] <;>
    first
      | (split_ifs <;> norm_num)
      | norm_num

/-- Claim C5: variant selection walks the weight list subtracting each
weight until the remainder is non-positive and returns that variant: a
returned pick is the variant at the first index whose cumulative weight
reaches the draw; the walk is a total function for every draw; exhaustion
happens exactly for draws beyond the total weight (so never for a uniform
draw in `[0, totalWeight)`, whose weights are all positive); and an
exhausted walk falls back deterministically to the greeting variant. -/
theorem selectInteraction_weighted_walk (t d h1 h2 r : ℚ) :
    (Select4.pick r (Select4.weightedList t d h1 h2) = none ↔
      Select4.totalWeight t d h1 h2 < r) ∧
    (Select4.pick r (Select4.weightedList t d h1 h2) = none →
      Select4.selectInteraction t d h1 h2 r = Select4.IKind.greeting) ∧
    (∀ k, Select4.pick r (Select4.weightedList t d h1 h2) = some k →
      ∃ i, ∃ hi : i < (Select4.weightedList t d h1 h2).length,
        ((Select4.weightedList t d h1 h2).get ⟨i, hi⟩).1 = k ∧
        r - Select4.cumWeight (Select4.weightedList t d h1 h2) (i + 1) ≤ 0 ∧
        ∀ j < i,
          0 < r - Select4.cumWeight (Select4.weightedList t d h1 h2) (j + 1)) := by
  refine ⟨?_, ?_, ?_⟩
  · have hsum : Select4.totalWeight t d h1 h2 =
        ((Select4.weightedList t d h1 h2).map Prod.snd).sum := by
      rw [Select4.totalWeight, Select4.foldl_add_eq_sum]
      ring
    rw [hsum]
    refine Select4.pick_none_iff r _ ?_ ?_
    · intro p hp
      obtain ⟨k, hk, hke⟩ := List.mem_map.mp hp
      rw [← hke]
      exact (Select4.weight_pos k t d h1 h2).le
    · simp [Select4.weightedList, Select4.interactionTypes]
  · intro h
    simp [Select4.selectInteraction, h]
  · intro k hk
    exact Select4.pick_some_spec _ r k hk

/-- Witness for C5 at concrete inputs: a draw beyond the total weight
falls back to the greeting variant. -/
theorem selectInteraction_weighted_walk_witness :
    Select4.selectInteraction 8 5 9 9 1000 = Select4.IKind.greeting := by
  have h := selectInteraction_weighted_walk 8 5 9 9 1000
  refine h.2.1 (h.1.mpr ?_)
  simp only [Select4.totalWeight, Select4.weightedList, Select4.interactionTypes,
    Select4.weight, List.map_cons, List.map_nil, List.foldl_cons, List.foldl_nil,
    reduceCtorEq, if_false, if_true, ite_false, ite_true, or_false, false_or,
    or_true, true_or, or_self]
  norm_num

theorem InteractionGeom.vsub_closed :
    InteractionGeom.vsub ⟨0.8, 0, 0⟩ ⟨0, 0, 0⟩ = ⟨0.8, 0, 0⟩ := by
  simp [InteractionGeom.vsub]

theorem InteractionGeom.vlength_example :
    InteractionGeom.vlength ⟨0.8, 0, 0⟩ = 0.8 := by
  rw [InteractionGeom.vlength]
  rw [show ((0.8:ℝ)) ^ 2 + (0:ℝ) ^ 2 + (0:ℝ) ^ 2 = (0.8:ℝ) ^ 2 by norm_num]
  exact Real.sqrt_sq (by norm_num)

theorem InteractionGeom.vdist_example :
    InteractionGeom.vdist ⟨0, 0, 0⟩ ⟨0.8, 0, 0⟩ = 0.8 := by
  rw [InteractionGeom.vdist]
  have hsub : InteractionGeom.vsub ⟨0, 0, 0⟩ ⟨0.8, 0, 0⟩ =
      (⟨-0.8, 0, 0⟩ : InteractionGeom.Vec3) := by
    simp [InteractionGeom.vsub]
  rw [hsub, InteractionGeom.vlength]
  rw [show ((-0.8:ℝ)) ^ 2 + (0:ℝ) ^ 2 + (0:ℝ) ^ 2 = (0.8:ℝ) ^ 2 by norm_num]
  exact Real.sqrt_sq (by norm_num)

/-- Claim C6 (code-bug evaluation): with the avatars exactly
`interactionDistance = 0.8` apart — e.g. at `(0,0,0)` and `(0.8,0,0)` —
the "too close" branch of `moveAvatarsTogether` is taken
(`0.8 < 2 * 0.8`), yet the computed temporary targets coincide with the
avatars' current positions, so they do not walk at all; and in fact both
branches of the source compute identical targets (the close branch's
`walkDistance = 3`, commented "make them walk at least 3 units to meet",
is never used). -/
theorem moveAvatarsTogether_close_branch_stays_put :
    InteractionGeom.vdist ⟨0, 0, 0⟩ ⟨0.8, 0, 0⟩ <
      InteractionGeom.interactionDistance * 2 ∧
    InteractionGeom.moveAvatarsTogetherTargets ⟨0, 0, 0⟩ ⟨0.8, 0, 0⟩ =
      (⟨0, 0, 0⟩, ⟨0.8, 0, 0⟩) ∧
    ∀ p1 p2 : InteractionGeom.Vec3,
      InteractionGeom.moveAvatarsTogetherTargets p1 p2 =
        (let direction := InteractionGeom.vnormalize (InteractionGeom.vsub p2 p1)
         let midpoint : InteractionGeom.Vec3 :=
           ⟨(p1.x + p2.x) / 2, 0, (p1.z + p2.z) / 2⟩
         (⟨midpoint.x - direction.x * (InteractionGeom.interactionDistance / 2),
           midpoint.y - direction.y * (InteractionGeom.interactionDistance / 2),
           midpoint.z - direction.z * (InteractionGeom.interactionDistance / 2)⟩,
          ⟨midpoint.x + direction.x * (InteractionGeom.interactionDistance / 2),
           midpoint.y + direction.y * (InteractionGeom.interactionDistance / 2),
           midpoint.z + direction.z * (InteractionGeom.interactionDistance / 2)⟩)) := by
  have hcond : InteractionGeom.vdist ⟨0, 0, 0⟩ ⟨0.8, 0, 0⟩ <
      InteractionGeom.interactionDistance * 2 := by
    rw [InteractionGeom.vdist_example, InteractionGeom.interactionDistance]
    norm_num
  refine ⟨hcond, ?_, ?_⟩
  · rw [InteractionGeom.moveAvatarsTogetherTargets]
    rw [if_pos hcond]
    have hdir : InteractionGeom.vnormalize
        (InteractionGeom.vsub ⟨0.8, 0, 0⟩ ⟨0, 0, 0⟩) =
        (⟨1, 0, 0⟩ : InteractionGeom.Vec3) := by
      rw [InteractionGeom.vsub_closed, InteractionGeom.vnormalize]
      rw [if_neg (by rw [InteractionGeom.vlength_example]; norm_num)]
      rw [InteractionGeom.vlength_example]
      simp
      norm_num
    rw [hdir]
    simp [InteractionGeom.interactionDistance, InteractionGeom.Vec3.mk.injEq]
  · intro p1 p2
    rw [InteractionGeom.moveAvatarsTogetherTargets]
    split_ifs <;> rfl

namespace App5

theorem abs_clamp_le (hi a : ℝ) (h : 0 ≤ hi) : |max (-hi) (min hi a)| ≤ hi := by
  rw [abs_le]
  exact ⟨le_max_left _ _, max_le (by linarith) (min_le_left _ _)⟩

theorem switchToWalking_pres (w : Walker) :
    (switchToWalking w).posX = w.posX ∧ (switchToWalking w).posZ = w.posZ ∧
    (switchToWalking w).currentRotation = w.currentRotation := by
  obtain ⟨ir, al, ips, iw, ca, sw, wt, wd, sd, tx, tz, tr, cr, jct, px, pz, r0⟩ := w
  unfold switchToWalking
  cases ca <;> split_ifs <;> exact ⟨rfl, rfl, rfl⟩

theorem switchToIdle_pres (w : Walker) :
    (switchToIdle w).posX = w.posX ∧ (switchToIdle w).posZ = w.posZ ∧
    (switchToIdle w).currentRotation = w.currentRotation := by
  obtain ⟨ir, al, ips, iw, ca, sw, wt, wd, sd, tx, tz, tr, cr, jct, px, pz, r0⟩ := w
  unfold switchToIdle
  cases ca <;> split_ifs <;> exact ⟨rfl, rfl, rfl⟩

theorem toggleStep_pres (w : Walker) (o : Rand) :
    (toggleStep w o).posX = w.posX ∧ (toggleStep w o).posZ = w.posZ ∧
    (toggleStep w o).currentRotation = w.currentRotation := by
  simp only [toggleStep]
  split_ifs
  · exact switchToIdle_pres _
  · exact ⟨rfl, rfl, rfl⟩
  · exact switchToWalking_pres _
  · exact ⟨rfl, rfl, rfl⟩

theorem navStep_pres (w : Walker) (o : Rand) :
    (navStep w o).1.posX = w.posX ∧ (navStep w o).1.posZ = w.posZ ∧
    (navStep w o).1.currentRotation = w.currentRotation := by
  simp only [navStep, setNewTarget]
  split_ifs <;> exact ⟨rfl, rfl, rfl⟩

theorem moveStep_rot_pres (w : Walker) (d : ℝ) (o : Rand) :
    (moveStep w d o).currentRotation = w.currentRotation := by
  simp only [moveStep, setNewTarget]
  split_ifs <;> rfl

theorem moveStep_bound (w : Walker) (d : ℝ) (o : Rand)
    (hx : |w.posX| ≤ boundary - safetyMargin)
    (hz : |w.posZ| ≤ boundary - safetyMargin) :
    |(moveStep w d o).posX| ≤ boundary - safetyMargin ∧
    |(moveStep w d o).posZ| ≤ boundary - safetyMargin := by
  have hL : (0:ℝ) ≤ boundary - safetyMargin := by
    rw [boundary, safetyMargin]; norm_num
  have he : -boundary + safetyMargin = -(boundary - safetyMargin) := by ring
  simp only [moveStep, setNewTarget]
  split_ifs with h1 h2 h3
  · exact ⟨h2.1.le, h2.2.le⟩
  · constructor
    · show |max (-boundary + safetyMargin) (min (boundary - safetyMargin) _)| ≤ _
      rw [he]
      exact abs_clamp_le _ _ hL
    · show |max (-boundary + safetyMargin) (min (boundary - safetyMargin) _)| ≤ _
      rw [he]
      exact abs_clamp_le _ _ hL
  · constructor
    · show |max (-boundary + safetyMargin) (min (boundary - safetyMargin) _)| ≤ _
      rw [he]
      exact abs_clamp_le _ _ hL
    · show |max (-boundary + safetyMargin) (min (boundary - safetyMargin) _)| ≤ _
      rw [he]
      exact abs_clamp_le _ _ hL
  · exact ⟨hx, hz⟩

end App5

namespace App5

theorem toggleStep_stopped (w : Walker) (o : Rand) (h : w.shouldWalk = false)
    (hd : ((w.walkTimer + 1 : ℕ) : ℝ) < w.stopDuration) :
    toggleStep w o = { w with walkTimer := w.walkTimer + 1 } := by
  simp only [toggleStep]
  rw [if_neg (by simp [h]), if_neg (by push_cast; push_cast at hd; linarith)]

theorem navStep_stopped (w : Walker) (o : Rand) (h : w.shouldWalk = false) :
    navStep w o = (w, false) := by
  simp only [navStep]
  rw [if_neg (by simp [h])]

theorem moveStep_stopped (w : Walker) (d : ℝ) (o : Rand)
    (h : w.shouldWalk = false) : moveStep w d o = w := by
  simp only [moveStep]
  rw [if_neg (by simp [h])]

end App5

/-- Claim C8 (amended, preservation part): `update()` never moves a walker
OUT of the safe region — if `|x| ≤ boundary - safetyMargin` and
`|z| ≤ boundary - safetyMargin` hold before a frame, they hold after it:
in-bounds forward motion is strictly inside the region and out-of-bounds
motion is clamped onto it (forcing a re-target unless debounced). -/
theorem walker_update_preserves_safe_region (w : App5.Walker) (o : App5.Rand)
    (hx : |w.posX| ≤ App5.boundary - App5.safetyMargin)
    (hz : |w.posZ| ≤ App5.boundary - App5.safetyMargin) :
    |(App5.update w o).1.posX| ≤ App5.boundary - App5.safetyMargin ∧
    |(App5.update w o).1.posZ| ≤ App5.boundary - App5.safetyMargin := by
  simp only [App5.update]
  split_ifs with g1 g2
  · exact ⟨hx, hz⟩
  · exact ⟨hx, hz⟩
  · have ht := App5.toggleStep_pres w o
    have hn := App5.navStep_pres (App5.toggleStep w o) o
    have hpx : (App5.rotStep (App5.navStep (App5.toggleStep w o) o).1).1.posX
        = w.posX := by
      show (App5.navStep (App5.toggleStep w o) o).1.posX = w.posX
      rw [hn.1, ht.1]
    have hpz : (App5.rotStep (App5.navStep (App5.toggleStep w o) o).1).1.posZ
        = w.posZ := by
      show (App5.navStep (App5.toggleStep w o) o).1.posZ = w.posZ
      rw [hn.2.1, ht.2.1]
    exact App5.moveStep_bound _ _ o (by rw [hpx]; exact hx) (by rw [hpz]; exact hz)

/-- Witness for the amended C8 theorem at a concrete in-region state. -/
theorem walker_update_preserves_safe_region_witness :
    |(App5.update { App5.wOutEx with posX := 0 } App5.randEx).1.posX| ≤
      App5.boundary - App5.safetyMargin ∧
    |(App5.update { App5.wOutEx with posX := 0 } App5.randEx).1.posZ| ≤
      App5.boundary - App5.safetyMargin := by
  apply walker_update_preserves_safe_region
  · show |(0:ℝ)| ≤ App5.boundary - App5.safetyMargin
    rw [App5.boundary, App5.safetyMargin]
    norm_num
  · show |(0:ℝ)| ≤ App5.boundary - App5.safetyMargin
    rw [App5.boundary, App5.safetyMargin]
    norm_num

/-- Claim C8, counterexample: walkers can stand outside the safe region
(initial spawn positions are drawn in the full `(-boundary, boundary)`
square), and an `update()` on a stopped walker leaves the position
untouched — after the call `|x| = 11 > boundary - safetyMargin = 10.75`,
so the claimed bound does not hold after every `update()`. -/
theorem walker_position_bound_counterexample :
    (App5.update App5.wOutEx App5.randEx).1.posX = 11 ∧
    ¬ (|(App5.update App5.wOutEx App5.randEx).1.posX| ≤
        App5.boundary - App5.safetyMargin) := by
  have hstep : (App5.update App5.wOutEx App5.randEx).1 =
      App5.moveStep
        (App5.rotStep
          (App5.navStep (App5.toggleStep App5.wOutEx App5.randEx)
            App5.randEx).1).1
        (App5.rotStep
          (App5.navStep (App5.toggleStep App5.wOutEx App5.randEx)
            App5.randEx).1).2
        App5.randEx := by
    simp only [App5.update]
    rw [if_neg (by simp [App5.wOutEx]), if_neg (by simp [App5.wOutEx])]
  have h1 : App5.toggleStep App5.wOutEx App5.randEx =
      { App5.wOutEx with walkTimer := 1 } :=
    App5.toggleStep_stopped _ _ rfl (by norm_num [App5.wOutEx])
  have h2 : App5.navStep { App5.wOutEx with walkTimer := 1 } App5.randEx =
      ({ App5.wOutEx with walkTimer := 1 }, false) :=
    App5.navStep_stopped _ _ rfl
  have hpos : (App5.update App5.wOutEx App5.randEx).1.posX = 11 := by
    rw [hstep, h1, h2]
    rw [App5.moveStep_stopped _ _ _ rfl]
    rfl
  refine ⟨hpos, ?_⟩
  rw [hpos, App5.boundary, App5.safetyMargin]
  rw [abs_of_nonneg (by norm_num : (0:ℝ) ≤ 11)]
  norm_num

/-- Claim C9: while turning toward a fixed target rotation, one rotation
step of `update()` (the 10% interpolation of the normalised yaw error,
src/app5/main.js lines 971-985) scales the normalised yaw error by exactly
0.9: its magnitude strictly decreases and its sign is preserved, so there
is no overshoot. -/
theorem walker_yaw_error_contracts (w : App5.Walker)
    (hne : Angle.normalize (w.targetRotation - w.currentRotation) ≠ 0) :
    Angle.normalize (w.targetRotation - (App5.rotStep w).1.currentRotation) =
      0.9 * Angle.normalize (w.targetRotation - w.currentRotation) ∧
    |Angle.normalize (w.targetRotation - (App5.rotStep w).1.currentRotation)| <
      |Angle.normalize (w.targetRotation - w.currentRotation)| ∧
    (0 < Angle.normalize (w.targetRotation - w.currentRotation) →
      0 < Angle.normalize (w.targetRotation - (App5.rotStep w).1.currentRotation)) ∧
    (Angle.normalize (w.targetRotation - w.currentRotation) < 0 →
      Angle.normalize (w.targetRotation - (App5.rotStep w).1.currentRotation) < 0) := by
  set t := w.targetRotation with ht
  set c := w.currentRotation with hc
  set d := Angle.normalize (t - c) with hd
  have hpi := Real.pi_pos
  have hmem : -Real.pi ≤ d ∧ d ≤ Real.pi := by
    rw [hd]; exact Angle.normalize_mem (t - c)
  have hcr : (App5.rotStep w).1.currentRotation =
      Angle.normalize (c + d * 0.1) := rfl
  have key : Angle.normalize (t - (App5.rotStep w).1.currentRotation)
      = 0.9 * d := by
    rw [hcr]
    obtain ⟨k1, hk1⟩ := Angle.normalize_congr (c + d * 0.1)
    obtain ⟨k2, hk2⟩ := Angle.normalize_congr (t - c)
    rw [← hd] at hk2
    apply Angle.normalize_eq_of_congr
    · nlinarith [hmem.1, hmem.2]
    · nlinarith [hmem.1, hmem.2]
    · refine ⟨k2 + k1, ?_⟩
      rw [hk1]
      push_cast
      push_cast at hk2
      linarith [hk2]
  have hd0 : 0 < |d| := abs_pos.mpr hne
  refine ⟨key, ?_, ?_, ?_⟩
  · rw [key, abs_mul]
    rw [show |(0.9:ℝ)| = 0.9 by norm_num]
    nlinarith
  · intro h
    rw [key]
    nlinarith
  · intro h
    rw [key]
    nlinarith

/-- Witness for C9: a walker at yaw 0 turning toward yaw 1 has its
normalised yaw error scaled to 0.9 of its previous magnitude. -/
theorem walker_yaw_error_contracts_witness :
    Angle.normalize (App5.wYawEx.targetRotation -
        (App5.rotStep App5.wYawEx).1.currentRotation) =
      0.9 * Angle.normalize
        (App5.wYawEx.targetRotation - App5.wYawEx.currentRotation) ∧
    |Angle.normalize (App5.wYawEx.targetRotation -
        (App5.rotStep App5.wYawEx).1.currentRotation)| <
      |Angle.normalize
        (App5.wYawEx.targetRotation - App5.wYawEx.currentRotation)| := by
  have h1 : App5.wYawEx.targetRotation - App5.wYawEx.currentRotation = 1 := by
    show (1:ℝ) - 0 = 1
    norm_num
  have hne : Angle.normalize
      (App5.wYawEx.targetRotation - App5.wYawEx.currentRotation) ≠ 0 := by
    rw [h1, Angle.normalize_of_mem 1 (by linarith [Real.pi_gt_three])
      (by linarith [Real.pi_gt_three])]
    norm_num
  have h := walker_yaw_error_contracts App5.wYawEx hne
  exact ⟨h.1, h.2.1⟩

/-- Claim C10: `currentRotation` lies in `[-π, π]` after construction (the
initial yaw is `(r - 0.5) * π * 2` for a unit draw `r`) and after every
`update()` call — skipped paths leave it unchanged and the main path always
re-normalises it — regardless of mode or suspension flags. -/
theorem walker_currentRotation_in_range :
    (∀ (ir : Bool) (px pz r0 rwd rsd rsh rr rtx rtz : ℝ), 0 ≤ rr → rr < 1 →
      -Real.pi ≤ (App5.init ir px pz r0 rwd rsd rsh rr rtx rtz).currentRotation ∧
      (App5.init ir px pz r0 rwd rsd rsh rr rtx rtz).currentRotation ≤ Real.pi) ∧
    (∀ (w : App5.Walker) (o : App5.Rand),
      -Real.pi ≤ w.currentRotation → w.currentRotation ≤ Real.pi →
      -Real.pi ≤ (App5.update w o).1.currentRotation ∧
      (App5.update w o).1.currentRotation ≤ Real.pi) := by
  constructor
  · intro ir px pz r0 rwd rsd rsh rr rtx rtz h0 h1
    have hpi := Real.pi_pos
    have hcr : (App5.init ir px pz r0 rwd rsd rsh rr rtx rtz).currentRotation
        = (rr - 0.5) * Real.pi * 2 := rfl
    rw [hcr]
    constructor
    · nlinarith [mul_nonneg h0 hpi.le]
    · nlinarith [mul_pos hpi (show (0:ℝ) < 1 - rr by linarith)]
  · intro w o hl hr
    simp only [App5.update]
    split_ifs with g1 g2
    · exact ⟨hl, hr⟩
    · exact ⟨hl, hr⟩
    · have hm := App5.moveStep_rot_pres
        (App5.rotStep (App5.navStep (App5.toggleStep w o) o).1).1
        (App5.rotStep (App5.navStep (App5.toggleStep w o) o).1).2 o
      constructor
      · show -Real.pi ≤ (App5.moveStep _ _ o).currentRotation
        rw [hm]
        exact (Angle.normalize_mem _).1
      · show (App5.moveStep _ _ o).currentRotation ≤ Real.pi
        rw [hm]
        exact (Angle.normalize_mem _).2

/-- Witness for C10 at concrete inputs: a walker constructed with draw
`r = 0` and one concrete `update()` both keep `currentRotation` in
`[-π, π]`. -/
theorem walker_currentRotation_in_range_witness :
    (-Real.pi ≤ (App5.init true 0 0 0 0 0 0 0 0 0).currentRotation ∧
      (App5.init true 0 0 0 0 0 0 0 0 0).currentRotation ≤ Real.pi) ∧
    (-Real.pi ≤ (App5.update App5.wOutEx App5.randEx).1.currentRotation ∧
      (App5.update App5.wOutEx App5.randEx).1.currentRotation ≤ Real.pi) := by
  constructor
  · exact walker_currentRotation_in_range.1 true 0 0 0 0 0 0 0 0 0
      le_rfl (by norm_num)
  · refine walker_currentRotation_in_range.2 App5.wOutEx App5.randEx ?_ ?_
    · show -Real.pi ≤ (0:ℝ)
      exact neg_nonpos.mpr Real.pi_pos.le
    · show (0:ℝ) ≤ Real.pi
      exact Real.pi_pos.le

namespace WalkerI

theorem update_override (w : Walker) (o : Rand) (t : ℚ × ℚ)
    (hii : w.inInteraction = false) (hip : w.isPlayingSpecial = false)
    (htt : w.tempTarget = some t) :
    (update w o).1.posX = stepCoord w.posX t.1 ∧
    (update w o).1.posZ = stepCoord w.posZ t.2 ∧
    (update w o).1.targetX = w.targetX ∧
    (update w o).1.targetZ = w.targetZ ∧
    (update w o).1.walkTimer = w.walkTimer := by
  obtain ⟨px, pz, tx0, tz0, sw, iw, ii, ips, wt, wd, sd, tt⟩ := w
  simp only at hii hip htt
  subst hii hip htt
  simp only [update]
  split_ifs <;> first
    | exact ⟨rfl, rfl, rfl, rfl, rfl⟩
    | simp_all

theorem update_fires_iff (w : Walker) (o : Rand) :
    (update w o).2 = true ↔
      (w.inInteraction = false ∧ w.isPlayingSpecial = false ∧
       ∃ t, w.tempTarget = some t ∧
         sqDist (stepCoord w.posX t.1) (stepCoord w.posZ t.2) t.1 t.2 <
           tempArrivalThreshold ^ 2) := by
  obtain ⟨px, pz, tx0, tz0, sw, iw, ii, ips, wt, wd, sd, tt⟩ := w
  cases ii with
  | true => simp [update]
  | false =>
    cases ips with
    | true => simp [update]
    | false =>
      cases tt with
      | none =>
        simp only [update, Bool.false_eq_true, if_false]
        constructor
        · intro hf
          split_ifs at hf <;> simp at hf
        · rintro ⟨-, -, t, hsome, -⟩
          exact absurd hsome (by simp)
      | some t0 =>
        simp only [update, Bool.false_eq_true, if_false]
        by_cases harr : sqDist (stepCoord px t0.1) (stepCoord pz t0.2)
            t0.1 t0.2 < tempArrivalThreshold ^ 2
        · rw [if_pos harr]
          constructor
          · intro hf2
            exact ⟨by trivial, by trivial, t0, rfl, harr⟩
          · intro h3
            rfl
        · rw [if_neg harr]
          constructor
          · intro hf
            exact absurd hf (by simp)
          · rintro ⟨-, -, t, hsome, harr2⟩
            rw [Option.some.injEq] at hsome
            subst hsome
            exact absurd harr2 harr

theorem update_fired_clears (w : Walker) (o : Rand)
    (hf : (update w o).2 = true) : (update w o).1.tempTarget = none := by
  obtain ⟨px, pz, tx0, tz0, sw, iw, ii, ips, wt, wd, sd, tt⟩ := w
  cases ii with
  | true => simp [update] at hf
  | false =>
    cases ips with
    | true => simp [update] at hf
    | false =>
      cases tt with
      | none =>
        simp only [update, Bool.false_eq_true, if_false] at hf
        split_ifs at hf <;> simp at hf
      | some t0 =>
        simp only [update, Bool.false_eq_true, if_false] at hf ⊢
        split_ifs at hf ⊢ <;> simp_all

theorem update_none (w : Walker) (o : Rand) (h : w.tempTarget = none) :
    (update w o).1.tempTarget = none ∧ (update w o).2 = false := by
  obtain ⟨px, pz, tx0, tz0, sw, iw, ii, ips, wt, wd, sd, tt⟩ := w
  simp only at h
  subst h
  cases ii <;> cases ips <;>
    simp only [update, Bool.false_eq_true, if_false] <;>
    first
      | exact ⟨rfl, rfl⟩
      | (split_ifs <;> exact ⟨rfl, rfl⟩)

theorem run_none_forever (w : Walker) (os : ℕ → Rand) (n : ℕ)
    (h : (run w os n).tempTarget = none) :
    ∀ m, n ≤ m → (run w os m).tempTarget = none := by
  intro m hm
  induction m, hm using Nat.le_induction with
  | base => exact h
  | succ m hm ih =>
    show (update (run w os m) (os m)).1.tempTarget = none
    exact (update_none _ _ ih).1

theorem firedAt_once (w : Walker) (os : ℕ → Rand) (n m : ℕ)
    (h : firedAt w os n = true) (hnm : n < m) : firedAt w os m = false := by
  have hclear : (run w os (n + 1)).tempTarget = none :=
    update_fired_clears _ _ h
  have hm : (run w os m).tempTarget = none :=
    run_none_forever w os (n + 1) hclear m hnm
  exact (update_none _ _ hm).2

end WalkerI

/-- Claim C2: an outside caller can set a one-off temporary destination
(`setTemporaryTarget`), which does not disturb the gesture sub-state; while
the override is active, `update()` walks toward the override destination
and leaves the normal wander target untouched; the completion callback
(the Boolean result of `update`) fires exactly when the walker first comes
within the stricter arrival threshold of the destination — the override is
cleared on firing, so it fires at most once along any run. -/
theorem temporary_target_override_and_callback (w : WalkerI.Walker)
    (o : WalkerI.Rand) (x z : ℚ) (t : ℚ × ℚ) (os : ℕ → WalkerI.Rand)
    (n m : ℕ) (hii : w.inInteraction = false)
    (hip : w.isPlayingSpecial = false) :
    ((WalkerI.setTemporaryTarget w x z).tempTarget = some (x, z) ∧
     (WalkerI.setTemporaryTarget w x z).isPlayingSpecial =
       w.isPlayingSpecial) ∧
    (w.tempTarget = some t →
      (WalkerI.update w o).1.posX = WalkerI.stepCoord w.posX t.1 ∧
      (WalkerI.update w o).1.posZ = WalkerI.stepCoord w.posZ t.2 ∧
      (WalkerI.update w o).1.targetX = w.targetX ∧
      (WalkerI.update w o).1.targetZ = w.targetZ) ∧
    ((WalkerI.update w o).2 = true ↔
      ∃ t1, w.tempTarget = some t1 ∧
        WalkerI.sqDist (WalkerI.stepCoord w.posX t1.1)
          (WalkerI.stepCoord w.posZ t1.2) t1.1 t1.2 <
          WalkerI.tempArrivalThreshold ^ 2) ∧
    (WalkerI.firedAt w os n = true → n < m →
      WalkerI.firedAt w os m = false) := by
  refine ⟨⟨rfl, rfl⟩, ?_, ?_, ?_⟩
  · intro htt
    have h := WalkerI.update_override w o t hii hip htt
    exact ⟨h.1, h.2.1, h.2.2.1, h.2.2.2.1⟩
  · rw [WalkerI.update_fires_iff]
    constructor
    · rintro ⟨-, -, hex⟩
      exact hex
    · intro hex
      exact ⟨hii, hip, hex⟩
  · exact fun h hnm => WalkerI.firedAt_once w os n m h hnm

/-- Witness for C2: the concrete walker one step from its override
destination fires its callback on this frame and never again on the next. -/
theorem temporary_target_override_and_callback_witness :
    (WalkerI.update WalkerI.wTempEx WalkerI.randWEx).2 = true ∧
    WalkerI.firedAt WalkerI.wTempEx (fun _ => WalkerI.randWEx) 1 = false := by
  have h := temporary_target_override_and_callback WalkerI.wTempEx
    WalkerI.randWEx 1 2 (0.05, 0) (fun _ => WalkerI.randWEx) 0 1 rfl rfl
  have harr : WalkerI.sqDist (WalkerI.stepCoord WalkerI.wTempEx.posX (0.05, 0).1)
      (WalkerI.stepCoord WalkerI.wTempEx.posZ (0.05, 0).2) (0.05, 0).1 (0.05, 0).2 <
      WalkerI.tempArrivalThreshold ^ 2 := by
    norm_num [WalkerI.sqDist, WalkerI.stepCoord, WalkerI.speed,
      WalkerI.tempArrivalThreshold, WalkerI.wTempEx]
  constructor
  · exact h.2.2.1.mpr ⟨(0.05, 0), rfl, harr⟩
  · apply h.2.2.2
    · show (WalkerI.update WalkerI.wTempEx WalkerI.randWEx).2 = true
      exact h.2.2.1.mpr ⟨(0.05, 0), rfl, harr⟩
    · omega
